import Mathlib

/-!
Shallow embedding of the Image-fusion application.

The service module supplies generatePromptFromImage, generateFusedImages
and its inner generateSingleImage; App.tsx supplies fileToBase64, the two
upload handlers and handleGenerateClick; the ImageUploader component
supplies handleFileChange; the GeneratedImage component supplies
handleDownload.  All remote and browser nondeterminism of one run is
supplied through an Env record: the two FileReader outcomes and the
outcomes of the style call and of the four fusion calls, the latter
indexed in call-issue order.  A run is modelled as a pure function of the
start state and the Env, returning the final state, the chronological list
of remote calls issued, and the chronological list of UI states rendered.
-/

namespace ImageFusion

/-- Failure of a remote call before any response body is usable: transport
failure or a content-policy block. -/
inductive RemoteError where
  | transport
  | contentBlocked
deriving DecidableEq

/-- Failure of a FileReader read; the onerror payload is a progress event,
not a JS Error instance. -/
inductive ReadError where
  | readFailed
deriving DecidableEq

/-- A thrown JS value as discriminated by instanceof Error in the catch of
handleGenerateClick. -/
inductive JSError where
  | jsError (msg : String)
  | nonError
deriving DecidableEq

/-- Inline binary payload of one response part. -/
structure InlineData where
  data : String
  mimeType : String
deriving DecidableEq

/-- One part of a model response: optional inline data, optional text. -/
structure ResponsePart where
  inlineData : Option InlineData
  text : Option String
deriving DecidableEq

/-- The content of one candidate: its ordered parts. -/
structure ResponseContent where
  parts : List ResponsePart
deriving DecidableEq

/-- One candidate of a fusion response. -/
structure Candidate where
  content : ResponseContent
deriving DecidableEq

/-- A fusion-call response as read by generateSingleImage. -/
structure FusionResponse where
  candidates : List Candidate
deriving DecidableEq

/-- A style-analysis response body: each field of the response schema may
be present or absent in what the remote model actually returned. -/
structure StyleJson where
  style : Option String
  subject : Option String
  composition : Option String
  lighting : Option String
  colors : Option String
  mood : Option String
deriving DecidableEq

/-- The required list of the responseSchema in generatePromptFromImage:
all six fields present. -/
def hasAllRequiredFields (j : StyleJson) : Bool :=
  j.style.isSome && j.subject.isSome && j.composition.isSome &&
  j.lighting.isSome && j.colors.isSome && j.mood.isSome

/-- Rendering of one optional JSON field. -/
def styleField (name : String) : Option String → List String
  | none => []
  | some v => ["\"" ++ name ++ "\": \"" ++ v ++ "\""]

/-- The text of a style-analysis response: a JSON rendering of whatever
fields are present. -/
def serializeStyle (j : StyleJson) : String :=
  "\x7b" ++ String.intercalate ", "
    (styleField "style" j.style ++ styleField "subject" j.subject ++
     styleField "composition" j.composition ++ styleField "lighting" j.lighting ++
     styleField "colors" j.colors ++ styleField "mood" j.mood) ++ "\x7d"

/-- The nondeterministic external world of one run. -/
structure Env where
  refRead : Except ReadError (List Char)
  subjRead : Except ReadError (List Char)
  styleOutcome : Except RemoteError StyleJson
  fusionOutcomes : Fin 4 → Except RemoteError FusionResponse

/-- A browser File as far as the application reads it. -/
structure JSFile where
  type : String
deriving DecidableEq

/-- The file/object-URL pair stored for an uploaded image. -/
structure UploadedImage where
  file : JSFile
  url : String
deriving DecidableEq

/-- The React state of App.tsx. -/
structure AppState where
  referenceImage : Option UploadedImage
  subjectImage : Option UploadedImage
  generatedImages : Option (List String)
  isLoading : Bool
  error : Option String
  progressMessage : String
  aspectR : String
deriving DecidableEq

def validationMsg : String := "Please upload both a reference and a subject image."

def unknownErrMsg : String := "An unknown error occurred during image generation."

def styleFailMsg : String := "Failed to analyze the reference image. The content may have been blocked."

def fusionFailMsg : String := "Failed to generate the final images. The content may have been blocked or the model failed."

def progress1 : String := "Step 1/2: Analyzing reference image for style..."

def progress2 : String := "Step 2/2: Fusing images and generating 4 new versions..."

/-- JS String.prototype.split with a single-comma separator, on a string
modelled as its character list. -/
def splitOnComma : List Char → List (List Char)
  | [] => [[]]
  | c :: cs =>
    if c = ',' then [] :: splitOnComma cs
    else
      match splitOnComma cs with
      | [] => [[c]]
      | s :: tail => (c :: s) :: tail

/-- fileToBase64 from App.tsx: on a successful read, split the result on
commas and take index 1 (none models the undefined value when there is no
comma); a failed read rejects with the non-Error event. -/
def fileToBase64 (outcome : Except ReadError (List Char)) :
    Except ReadError (Option (List Char)) :=
  match outcome with
  | .error e => .error e
  | .ok result => .ok ((splitOnComma result)[1]?)

/-- A remote call issued during a run; a run log lists these in issue
order. -/
inductive Event where
  | styleCall (data : Option (List Char)) (mimeType : String)
  | fusionCall (callIndex : Nat) (data : Option (List Char)) (mimeType : String) (prompt : String)
deriving DecidableEq

def isFusionCall : Event → Bool
  | .styleCall _ _ => false
  | .fusionCall _ _ _ _ => true

/-- generatePromptFromImage from the service module: issue the style call;
any failure is collapsed into the fixed style-analysis message, and a
successful response yields its text with no schema re-validation. -/
def generatePromptFromImage (imageBase64 : Option (List Char)) (mimeType : String)
    (outcome : Except RemoteError StyleJson) : List Event × Except String String :=
  ([Event.styleCall imageBase64 mimeType],
    match outcome with
    | .error _ => .error styleFailMsg
    | .ok j => .ok (serializeStyle j))

/-- The fixed instruction template of generateFusedImages, with the aspect
ratio and the style prompt interpolated. -/
def finalPrompt (stylePrompt : String) (aspectR : String) : String :=
  "Instructions:\n1.  **Primary Goal:** Recreate the person from the provided image within a new setting.\n2.  **Person Replication:** The person\x27s face, body, and clothing must be an EXACT replica of the person in the provided image. DO NOT change their appearance in any way. This is the most important rule.\n3.  **New Scene:** Generate a new background and scene that strictly adheres to the style guide below.\n4.  **Integration:** Seamlessly blend the person into the new scene, ensuring lighting and shadows on the person match the new environment.\n5.  **Aspect Ratio:** The final image must have an aspect ratio of "
    ++ aspectR ++ ".\n\n**Style Guide (for the new scene):**\n" ++ stylePrompt

/-- Failure of one fusion call: a rejected remote call, a response with no
candidate, or a response none of whose parts holds inline image data. -/
inductive CallError where
  | remote (e : RemoteError)
  | noCandidate
  | noImageData
deriving DecidableEq

/-- First part carrying inline data, scanning the parts in order. -/
def findFirstInline : List ResponsePart → Option InlineData
  | [] => none
  | p :: ps =>
    match p.inlineData with
    | some d => some d
    | none => findFirstInline ps

/-- generateSingleImage from inside generateFusedImages: scan the parts of
the first candidate in order and return the first inline payload; a
missing candidate or the absence of any inline part rejects the call. -/
def generateSingleImage (outcome : Except RemoteError FusionResponse) :
    Except CallError String :=
  match outcome with
  | .error e => .error (.remote e)
  | .ok resp =>
    match resp.candidates.head? with
    | none => .error .noCandidate
    | some cand =>
      match findFirstInline cand.content.parts with
      | some d => .ok d.data
      | none => .error .noImageData

/-- Promise.all over the settled call outcomes: the ordered list of values
when all succeed, otherwise a rejection. -/
def promiseAll : List (Except CallError String) → Except CallError (List String)
  | [] => .ok []
  | .error e :: _ => .error e
  | .ok a :: rest =>
    match promiseAll rest with
    | .ok l => .ok (a :: l)
    | .error e => .error e

/-- generateFusedImages from the service module: build the final prompt,
issue four identical fusion calls, join them with Promise.all, and
collapse any failure into the fixed fusion-failure message. -/
def generateFusedImages (stylePrompt : String) (subjectImageBase64 : Option (List Char))
    (subjectMimeType : String) (aspectR : String)
    (outcomes : Fin 4 → Except RemoteError FusionResponse) :
    List Event × Except String (List String) :=
  ([Event.fusionCall 0 subjectImageBase64 subjectMimeType (finalPrompt stylePrompt aspectR),
    Event.fusionCall 1 subjectImageBase64 subjectMimeType (finalPrompt stylePrompt aspectR),
    Event.fusionCall 2 subjectImageBase64 subjectMimeType (finalPrompt stylePrompt aspectR),
    Event.fusionCall 3 subjectImageBase64 subjectMimeType (finalPrompt stylePrompt aspectR)],
    match promiseAll [generateSingleImage (outcomes 0), generateSingleImage (outcomes 1),
        generateSingleImage (outcomes 2), generateSingleImage (outcomes 3)] with
    | .ok l => .ok l
    | .error _ => .error fusionFailMsg)

/-- The synchronous state writes at the head of a run: loading on, stale
error and results cleared. -/
def clearForRun (s : AppState) : AppState :=
  { s with isLoading := true, error := none, generatedImages := none }

/-- The try block of handleGenerateClick: encode the reference, run style
extraction, encode the subject, run fusion.  Returns the settled value or
the thrown object, the remote calls issued, and whether the phase-2
progress message was reached. -/
def tryRun (ref subj : UploadedImage) (aspectR : String) (env : Env) :
    Except JSError (List String) × List Event × Bool :=
  match fileToBase64 env.refRead with
  | .error _ => (.error .nonError, [], false)
  | .ok refB64 =>
    match generatePromptFromImage refB64 ref.file.type env.styleOutcome with
    | (evs, .error msg) => (.error (.jsError msg), evs, false)
    | (evs, .ok stylePrompt) =>
      match fileToBase64 env.subjRead with
      | .error _ => (.error .nonError, evs, true)
      | .ok subjB64 =>
        match generateFusedImages stylePrompt subjB64 subj.file.type aspectR env.fusionOutcomes with
        | (fevs, .error msg) => (.error (.jsError msg), evs ++ fevs, true)
        | (fevs, .ok imgs) => (.ok imgs, evs ++ fevs, true)

/-- One full run of handleGenerateClick: final state, chronological remote
calls, and the chronological UI states rendered from the trigger on. -/
structure RunOutput where
  final : AppState
  events : List Event
  shown : List AppState

/-- The user-facing message of a thrown value, as computed in the catch of
handleGenerateClick. -/
def messageOf : JSError → String
  | .jsError m => m
  | .nonError => unknownErrMsg

/-- handleGenerateClick from App.tsx, as a function of the start state and
the external world. -/
def handleGenerateClick (s : AppState) (env : Env) : RunOutput :=
  match s.referenceImage, s.subjectImage with
  | none, _ =>
    ⟨{ s with error := some validationMsg }, [], [{ s with error := some validationMsg }]⟩
  | some _, none =>
    ⟨{ s with error := some validationMsg }, [], [{ s with error := some validationMsg }]⟩
  | some ref, some subj =>
    match tryRun ref subj s.aspectR env with
    | (.ok imgs, evs, _) =>
      ⟨{ clearForRun s with
          progressMessage := ""
          isLoading := false
          generatedImages := some (imgs.map fun b => "data:image/png;base64," ++ b) },
        evs,
        [{ clearForRun s with progressMessage := progress1 },
         { clearForRun s with progressMessage := progress2 },
         { clearForRun s with
            progressMessage := ""
            isLoading := false
            generatedImages := some (imgs.map fun b => "data:image/png;base64," ++ b) }]⟩
    | (.error e, evs, reached2) =>
      ⟨{ clearForRun s with
          progressMessage := ""
          isLoading := false
          error := some (messageOf e) },
        evs,
        [{ clearForRun s with progressMessage := progress1 }] ++
          (if reached2 then [{ clearForRun s with progressMessage := progress2 }] else []) ++
          [{ clearForRun s with
              progressMessage := ""
              isLoading := false
              error := some (messageOf e) }]⟩

/-- handleReferenceImageUpload from App.tsx. -/
def handleReferenceImageUpload (file : JSFile) (url : String) (s : AppState) : AppState :=
  { s with referenceImage := some ⟨file, url⟩, generatedImages := none, error := none }

/-- handleSubjectImageUpload from App.tsx. -/
def handleSubjectImageUpload (file : JSFile) (url : String) (s : AppState) : AppState :=
  { s with subjectImage := some ⟨file, url⟩, generatedImages := none, error := none }

/-- JS String.prototype.startsWith, on the character lists of the two
strings. -/
def jsStartsWith (s pre : String) : Bool :=
  pre.toList.isPrefixOf s.toList

/-- handleFileChange from ImageUploader: the first selected file, if any,
is accepted only when its media type starts with image/.  Returns the file
handed to the upload callback, none when the change is ignored. -/
def handleFileChange (files : List JSFile) : Option JSFile :=
  match files.head? with
  | none => none
  | some file => if jsStartsWith file.type "image/" then some file else none

/-- The state effect of a change event on an uploader wired to callback
cb: cb runs only when handleFileChange accepts the file. -/
def applyUpload (cb : JSFile → AppState → AppState) (files : List JSFile) (s : AppState) : AppState :=
  match handleFileChange files with
  | some f => cb f s
  | none => s

/-- handleDownload from GeneratedImage: the anchor href is the displayed
src and the download attribute is the fixed png filename. -/
def handleDownload (src : String) (index : Nat) : String × String :=
  (src, "ai-fused-image-" ++ toString (index + 1) ++ ".png")

/-- A fusion response holding one candidate with a single inline-data
part. -/
def singlePartResponse (payload mime : String) : FusionResponse :=
  ⟨[⟨⟨[⟨some ⟨payload, mime⟩, none⟩]⟩⟩]⟩

/-- A concrete png file. -/
def demoFile : JSFile := ⟨"image/png"⟩

/-- A concrete start state with both images uploaded. -/
def demoState : AppState :=
  ⟨some ⟨demoFile, "u1"⟩, some ⟨demoFile, "u2"⟩, none, false, none, "", "1:1"⟩

/-- A concrete schema-conforming style response. -/
def demoJson : StyleJson :=
  ⟨some "photorealistic", some "a person", some "centered", some "soft", some "warm", some "serene"⟩

/-- A concrete fusion response carrying one image payload. -/
def goodResp : FusionResponse := singlePartResponse "AA" "image/png"

/-- A concrete world in which every read and every remote call succeeds. -/
def goodEnv : Env :=
  ⟨.ok ['d', ',', 'r'], .ok ['d', ',', 's'], .ok demoJson, fun _ => .ok goodResp⟩

/-- A concrete fusion world whose third call is content-blocked. -/
def mixedOuts : Fin 4 → Except RemoteError FusionResponse :=
  fun i => if i = 2 then .error .contentBlocked else .ok goodResp

/-- A concrete style response that is missing the required mood field. -/
def cexJson : StyleJson :=
  ⟨some "photorealistic", some "a person", some "centered", some "soft", some "warm", none⟩

/-- A concrete world identical to goodEnv except that the style response
violates the schema. -/
def cexEnv : Env :=
  ⟨.ok ['d', ',', 'r'], .ok ['d', ',', 's'], .ok cexJson, fun _ => .ok goodResp⟩

/-- A concrete world whose style call is content-blocked. -/
def badStyleEnv : Env :=
  ⟨.ok ['d', ',', 'r'], .ok ['d', ',', 's'], .error .contentBlocked, fun _ => .ok goodResp⟩

/-- The second call logged by a run on demoState under goodEnv or cexEnv:
the first fusion call. -/
def demoFusionEv : Event :=
  Event.fusionCall 0 (some ['s']) "image/png" (finalPrompt (serializeStyle demoJson) "1:1")

/-- A concrete all-success world whose inline image data carries a webp
mime type. -/
def webpEnv : Env :=
  ⟨.ok ['d', ',', 'r'], .ok ['d', ',', 's'], .ok demoJson,
    fun _ => .ok (singlePartResponse "CC" "image/webp")⟩

theorem splitOnComma_no_comma (q : List Char) (h : ',' ∉ q) : splitOnComma q = [q] := by
  induction q with
  | nil => rfl
  | cons c cs ih =>
    have hc : ¬ c = ',' := fun hh => h (by simp [hh])
    have hcs : ',' ∉ cs := fun hm => h (List.mem_cons_of_mem _ hm)
    simp [splitOnComma, hc, ih hcs]

theorem splitOnComma_split (p q : List Char) (hp : ',' ∉ p) (hq : ',' ∉ q) :
    splitOnComma (p ++ ',' :: q) = [p, q] := by
  induction p with
  | nil => simp [splitOnComma, splitOnComma_no_comma q hq]
  | cons c cs ih =>
    have hc : ¬ c = ',' := fun hh => hp (by simp [hh])
    have hcs : ',' ∉ cs := fun hm => hp (List.mem_cons_of_mem _ hm)
    simp [splitOnComma, hc, ih hcs]

theorem findFirstInline_skip (pre rest : List ResponsePart)
    (hpre : ∀ q ∈ pre, q.inlineData = none) :
    findFirstInline (pre ++ rest) = findFirstInline rest := by
  induction pre with
  | nil => rfl
  | cons p ps ih =>
    have hp := hpre p (List.mem_cons_self p ps)
    simp [findFirstInline, hp, ih fun q hq => hpre q (List.mem_cons_of_mem _ hq)]

theorem findFirstInline_none (l : List ResponsePart)
    (h : ∀ q ∈ l, q.inlineData = none) : findFirstInline l = none := by
  have hs := findFirstInline_skip l [] h
  simpa using hs

theorem promiseAll_ne_ok (l : List (Except CallError String)) (a : CallError)
    (hl : Except.error a ∈ l) : ∀ res, promiseAll l ≠ Except.ok res := by
  induction l with
  | nil => simp at hl
  | cons x xs ih =>
    intro res
    rcases List.mem_cons.mp hl with h | h
    · rw [← h]; simp [promiseAll]
    · cases x with
      | error e => simp [promiseAll]
      | ok v =>
        simp only [promiseAll]
        cases hpa : promiseAll xs with
        | error e => simp
        | ok l2 => exact absurd hpa (ih h l2)

theorem generateSingleImage_singlePart (payload mime : String) :
    generateSingleImage (Except.ok (singlePartResponse payload mime)) = Except.ok payload := rfl

/-- Claim C1: when all four parallel fusion calls succeed,
generateFusedImages returns exactly four base64 payloads, listed in
call-issue order (the list entry at position i is the value of the call
issued at position i). -/
theorem generateFusedImages_four_in_issue_order (p : String) (dta : Option (List Char))
    (mt ar : String) (outs : Fin 4 → Except RemoteError FusionResponse)
    (v : Fin 4 → String)
    (h : ∀ i : Fin 4, generateSingleImage (outs i) = Except.ok (v i)) :
    (generateFusedImages p dta mt ar outs).2 = Except.ok [v 0, v 1, v 2, v 3] ∧
    ∀ l, (generateFusedImages p dta mt ar outs).2 = Except.ok l → l.length = 4 := by
  have e2 : (generateFusedImages p dta mt ar outs).2 = Except.ok [v 0, v 1, v 2, v 3] := by
    simp [generateFusedImages, promiseAll, h 0, h 1, h 2, h 3]
  refine ⟨e2, fun l hl => ?_⟩
  rw [e2] at hl
  injection hl with h4
  subst h4
  rfl

/-- Witness for generateFusedImages_four_in_issue_order at a concrete
all-success world. -/
theorem generateFusedImages_four_in_issue_order_witness :
    (∀ i : Fin 4, generateSingleImage ((fun _ : Fin 4 => Except.ok goodResp) i) =
      Except.ok ((fun _ : Fin 4 => "AA") i)) ∧
    ((generateFusedImages "p" (some ['d']) "image/png" "1:1"
        (fun _ : Fin 4 => Except.ok goodResp)).2 = Except.ok ["AA", "AA", "AA", "AA"] ∧
      ∀ l, (generateFusedImages "p" (some ['d']) "image/png" "1:1"
        (fun _ : Fin 4 => Except.ok goodResp)).2 = Except.ok l → l.length = 4) :=
  ⟨fun _ => rfl,
    generateFusedImages_four_in_issue_order "p" (some ['d']) "image/png" "1:1"
      (fun _ : Fin 4 => Except.ok goodResp) (fun _ : Fin 4 => "AA") (fun _ => rfl)⟩

/-- Claim C2: if any one of the four fusion calls fails, generateFusedImages
fails with the single fusion-failure message and never returns a partial
list of images as a success. -/
theorem generateFusedImages_all_or_nothing (p : String) (dta : Option (List Char))
    (mt ar : String) (outs : Fin 4 → Except RemoteError FusionResponse)
    (i : Fin 4) (e : CallError)
    (h : generateSingleImage (outs i) = Except.error e) :
    (generateFusedImages p dta mt ar outs).2 = Except.error fusionFailMsg ∧
    ∀ l, (generateFusedImages p dta mt ar outs).2 ≠ Except.ok l := by
  have hmem : Except.error e ∈ [generateSingleImage (outs 0), generateSingleImage (outs 1),
      generateSingleImage (outs 2), generateSingleImage (outs 3)] :=
    match i, h with
    | ⟨0, _⟩, h => List.mem_cons.mpr (Or.inl h.symm)
    | ⟨1, _⟩, h => List.mem_cons.mpr (Or.inr (List.mem_cons.mpr (Or.inl h.symm)))
    | ⟨2, _⟩, h =>
      List.mem_cons.mpr (Or.inr (List.mem_cons.mpr (Or.inr (List.mem_cons.mpr (Or.inl h.symm)))))
    | ⟨3, _⟩, h =>
      List.mem_cons.mpr (Or.inr (List.mem_cons.mpr (Or.inr (List.mem_cons.mpr
        (Or.inr (List.mem_cons.mpr (Or.inl h.symm)))))))
    | ⟨n + 4, hn⟩, _ => absurd hn (by omega)
  have hne := promiseAll_ne_ok _ e hmem
  cases hpa : promiseAll [generateSingleImage (outs 0), generateSingleImage (outs 1),
      generateSingleImage (outs 2), generateSingleImage (outs 3)] with
  | ok l => exact absurd hpa (hne l)
  | error e2 =>
    constructor
    · simp [generateFusedImages, hpa]
    · intro l
      simp [generateFusedImages, hpa]

/-- Witness for generateFusedImages_all_or_nothing at a concrete world
whose third call fails. -/
theorem generateFusedImages_all_or_nothing_witness :
    generateSingleImage (mixedOuts 2) =
      Except.error (CallError.remote RemoteError.contentBlocked) ∧
    ((generateFusedImages "p" (some ['d']) "image/png" "1:1" mixedOuts).2 =
        Except.error fusionFailMsg ∧
      ∀ l, (generateFusedImages "p" (some ['d']) "image/png" "1:1" mixedOuts).2 ≠
        Except.ok l) :=
  ⟨rfl, generateFusedImages_all_or_nothing "p" (some ['d']) "image/png" "1:1" mixedOuts 2 _ rfl⟩

/-- Claim C4: with either image absent, triggering a run issues no remote
call; the validation error is set synchronously and every other state
field is left as it was. -/
theorem missing_image_short_circuits (s : AppState) (env : Env)
    (h : s.referenceImage = none ∨ s.subjectImage = none) :
    (handleGenerateClick s env).events = [] ∧
    (handleGenerateClick s env).final = { s with error := some validationMsg } ∧
    (handleGenerateClick s env).shown = [{ s with error := some validationMsg }] := by
  rcases h with h | h
  · simp [handleGenerateClick, h]
  · cases hr : s.referenceImage with
    | none => simp [handleGenerateClick, hr]
    | some r => simp [handleGenerateClick, hr, h]

/-- A concrete start state with the subject image still missing. -/
def noSubjState : AppState :=
  ⟨some ⟨demoFile, "u1"⟩, none, some ["stale"], false, none, "", "1:1"⟩

/-- Witness for missing_image_short_circuits at a concrete state with no
subject image. -/
theorem missing_image_short_circuits_witness :
    (noSubjState.referenceImage = none ∨ noSubjState.subjectImage = none) ∧
    ((handleGenerateClick noSubjState goodEnv).events = [] ∧
      (handleGenerateClick noSubjState goodEnv).final =
        { noSubjState with error := some validationMsg } ∧
      (handleGenerateClick noSubjState goodEnv).shown =
        [{ noSubjState with error := some validationMsg }]) :=
  ⟨Or.inr rfl, missing_image_short_circuits noSubjState goodEnv (Or.inr rfl)⟩

/-- Claim C6: a read of data-URL form yields the payload with everything up
to the first comma (the data-URI scheme prefix) stripped; the run pairs
that payload with the type field of the file in the style call it issues;
a failed read propagates its rejection. -/
theorem fileToBase64_payload_and_mime (s : AppState) (r u : UploadedImage) (env : Env)
    (pre payload : List Char) (er : ReadError)
    (hpre : ',' ∉ pre) (hpay : ',' ∉ payload)
    (h1 : s.referenceImage = some r) (h2 : s.subjectImage = some u)
    (h3 : env.refRead = Except.ok (pre ++ ',' :: payload)) :
    fileToBase64 env.refRead = Except.ok (some payload) ∧
    fileToBase64 (Except.error er) = Except.error er ∧
    (handleGenerateClick s env).events.head? =
      some (Event.styleCall (some payload) r.file.type) := by
  have hfb : fileToBase64 env.refRead = Except.ok (some payload) := by
    rw [h3]
    simp [fileToBase64, splitOnComma_split pre payload hpre hpay]
  refine ⟨hfb, rfl, ?_⟩
  simp only [handleGenerateClick, h1, h2]
  simp only [tryRun, hfb, generatePromptFromImage]
  cases hso : env.styleOutcome with
  | error e => simp
  | ok j =>
    cases hsr : fileToBase64 env.subjRead with
    | error e2 => simp
    | ok sb =>
      simp only [generateFusedImages]
      cases hpa : promiseAll [generateSingleImage (env.fusionOutcomes 0),
          generateSingleImage (env.fusionOutcomes 1), generateSingleImage (env.fusionOutcomes 2),
          generateSingleImage (env.fusionOutcomes 3)] with
      | ok l => simp [hpa]
      | error e3 => simp [hpa]

/-- Witness for fileToBase64_payload_and_mime at a concrete data URL. -/
theorem fileToBase64_payload_and_mime_witness :
    ',' ∉ ['d'] ∧ ',' ∉ ['r'] ∧
    demoState.referenceImage = some ⟨demoFile, "u1"⟩ ∧
    demoState.subjectImage = some ⟨demoFile, "u2"⟩ ∧
    goodEnv.refRead = Except.ok (['d'] ++ ',' :: ['r']) ∧
    (fileToBase64 goodEnv.refRead = Except.ok (some ['r']) ∧
      fileToBase64 (Except.error ReadError.readFailed) = Except.error ReadError.readFailed ∧
      (handleGenerateClick demoState goodEnv).events.head? =
        some (Event.styleCall (some ['r']) (⟨demoFile, "u1"⟩ : UploadedImage).file.type)) :=
  ⟨by decide, by decide, rfl, rfl, rfl,
    fileToBase64_payload_and_mime demoState ⟨demoFile, "u1"⟩ ⟨demoFile, "u2"⟩ goodEnv
      ['d'] ['r'] ReadError.readFailed (by decide) (by decide) rfl rfl rfl⟩

/-- Claim C7: each fusion response is scanned part by part in order and the
first part carrying inline data supplies the payload of that call; a
response none of whose parts carries inline data fails that call with the
no-image-data error. -/
theorem generateSingleImage_scans_parts (resp : FusionResponse) (cand : Candidate)
    (rest : List Candidate) (hc : resp.candidates = cand :: rest) :
    (∀ pre post p d, cand.content.parts = pre ++ p :: post →
      (∀ q ∈ pre, q.inlineData = none) → p.inlineData = some d →
      generateSingleImage (Except.ok resp) = Except.ok d.data) ∧
    ((∀ q ∈ cand.content.parts, q.inlineData = none) →
      generateSingleImage (Except.ok resp) = Except.error CallError.noImageData) := by
  constructor
  · intro pre post p d hparts hpre hd
    simp [generateSingleImage, hc, hparts, findFirstInline_skip pre _ hpre,
      findFirstInline, hd]
  · intro hall
    simp [generateSingleImage, hc, findFirstInline_none _ hall]

/-- A concrete candidate whose first part is text-only and whose second
part carries the image. -/
def scanCand : Candidate := ⟨⟨[⟨none, some "some text"⟩, ⟨some ⟨"BB", "image/webp"⟩, none⟩]⟩⟩

/-- A concrete response around scanCand. -/
def scanResp : FusionResponse := ⟨[scanCand]⟩

/-- Witness for generateSingleImage_scans_parts at a concrete two-part
response. -/
theorem generateSingleImage_scans_parts_witness :
    scanResp.candidates = scanCand :: [] ∧
    ((∀ pre post p d, scanCand.content.parts = pre ++ p :: post →
        (∀ q ∈ pre, q.inlineData = none) → p.inlineData = some d →
        generateSingleImage (Except.ok scanResp) = Except.ok d.data) ∧
      ((∀ q ∈ scanCand.content.parts, q.inlineData = none) →
        generateSingleImage (Except.ok scanResp) = Except.error CallError.noImageData)) :=
  ⟨rfl, generateSingleImage_scans_parts scanResp scanCand [] rfl⟩

/-- Claim C9: a selected file whose media type does not start with image/
is silently ignored: the upload callback receives no file and the
application state is unchanged. -/
theorem nonimage_file_ignored (files : List JSFile) (f : JSFile) (s : AppState)
    (cb : JSFile → AppState → AppState)
    (hh : files.head? = some f) (ht : jsStartsWith f.type "image/" = false) :
    handleFileChange files = none ∧ applyUpload cb files s = s := by
  have hnone : handleFileChange files = none := by
    simp [handleFileChange, hh, ht]
  exact ⟨hnone, by simp [applyUpload, hnone]⟩

/-- Witness for nonimage_file_ignored at a concrete text file. -/
theorem nonimage_file_ignored_witness :
    ([(⟨"text/plain"⟩ : JSFile)].head? = some (⟨"text/plain"⟩ : JSFile)) ∧
    jsStartsWith (⟨"text/plain"⟩ : JSFile).type "image/" = false ∧
    (handleFileChange [(⟨"text/plain"⟩ : JSFile)] = none ∧
      applyUpload (fun fl st => handleReferenceImageUpload fl "u" st)
        [(⟨"text/plain"⟩ : JSFile)] demoState = demoState) :=
  ⟨rfl, by decide,
    nonimage_file_ignored [⟨"text/plain"⟩] ⟨"text/plain"⟩ demoState
      (fun fl st => handleReferenceImageUpload fl "u" st) rfl (by decide)⟩

/-- Claim C5: any fusion call in the run log implies the style call
completed successfully, and the first call the run issues is the style
call; in particular a run whose style extraction fails issues no fusion
call. -/
theorem style_completes_before_fusion (s : AppState) (env : Env) (ev : Event)
    (he : ev ∈ (handleGenerateClick s env).events) (hf : isFusionCall ev = true) :
    (∃ j, env.styleOutcome = Except.ok j) ∧
    (∃ dta mt, (handleGenerateClick s env).events.head? =
      some (Event.styleCall dta mt)) := by
  cases hri : s.referenceImage with
  | none => simp [handleGenerateClick, hri] at he
  | some r =>
    cases hsi : s.subjectImage with
    | none => simp [handleGenerateClick, hri, hsi] at he
    | some u =>
      cases hrr : fileToBase64 env.refRead with
      | error er => simp [handleGenerateClick, tryRun, hri, hsi, hrr] at he
      | ok rb =>
        cases hso : env.styleOutcome with
        | error er =>
          simp [handleGenerateClick, tryRun, generatePromptFromImage, hri, hsi, hrr, hso] at he
          simp [he, isFusionCall] at hf
        | ok j =>
          refine ⟨⟨j, rfl⟩, rb, r.file.type, ?_⟩
          cases hsr : fileToBase64 env.subjRead with
          | error e2 =>
            simp [handleGenerateClick, tryRun, generatePromptFromImage, hri, hsi, hrr, hso, hsr]
          | ok sb =>
            simp only [handleGenerateClick, tryRun, generatePromptFromImage, generateFusedImages,
              hri, hsi, hrr, hso, hsr]
            cases hpa : promiseAll [generateSingleImage (env.fusionOutcomes 0),
                generateSingleImage (env.fusionOutcomes 1), generateSingleImage (env.fusionOutcomes 2),
                generateSingleImage (env.fusionOutcomes 3)] with
            | ok l => simp [hpa]
            | error e3 => simp [hpa]

/-- Witness for style_completes_before_fusion at a concrete successful
run. -/
theorem style_completes_before_fusion_witness :
    demoFusionEv ∈ (handleGenerateClick demoState goodEnv).events ∧
    isFusionCall demoFusionEv = true ∧
    ((∃ j, goodEnv.styleOutcome = Except.ok j) ∧
      (∃ dta mt, (handleGenerateClick demoState goodEnv).events.head? =
        some (Event.styleCall dta mt))) := by
  have hmem : demoFusionEv ∈ (handleGenerateClick demoState goodEnv).events :=
    List.mem_cons_of_mem _ (List.mem_cons_self _ _)
  exact ⟨hmem, rfl, style_completes_before_fusion demoState goodEnv demoFusionEv hmem rfl⟩

/-- Claim C8: a new run renders the cleared state first, with the previous
results and error wiped; those stale fields have no effect at all on the
run; and re-uploading either image also clears both fields. -/
theorem new_run_clears_stale (s : AppState) (r u : UploadedImage) (env : Env)
    (g0 : Option (List String)) (e0 : Option String) (f : JSFile) (url : String)
    (h1 : s.referenceImage = some r) (h2 : s.subjectImage = some u) :
    (handleGenerateClick s env).shown.head? =
      some { clearForRun s with progressMessage := progress1 } ∧
    (clearForRun s).generatedImages = none ∧ (clearForRun s).error = none ∧
    handleGenerateClick { s with generatedImages := g0, error := e0 } env =
      handleGenerateClick s env ∧
    (handleReferenceImageUpload f url s).generatedImages = none ∧
    (handleReferenceImageUpload f url s).error = none ∧
    (handleSubjectImageUpload f url s).generatedImages = none ∧
    (handleSubjectImageUpload f url s).error = none := by
  refine ⟨?_, rfl, rfl, ?_, rfl, rfl, rfl, rfl⟩
  · simp only [handleGenerateClick, h1, h2]
    cases htr : tryRun r u s.aspectR env with
    | mk res rest =>
      obtain ⟨evs, r2⟩ := rest
      cases res with
      | ok imgs => simp
      | error e1 => cases r2 <;> simp
  · simp only [handleGenerateClick, clearForRun, h1, h2]

/-- Witness for new_run_clears_stale at a concrete state holding stale
results and a stale error. -/
theorem new_run_clears_stale_witness :
    demoState.referenceImage = some ⟨demoFile, "u1"⟩ ∧
    demoState.subjectImage = some ⟨demoFile, "u2"⟩ ∧
    ((handleGenerateClick demoState goodEnv).shown.head? =
        some { clearForRun demoState with progressMessage := progress1 } ∧
      (clearForRun demoState).generatedImages = none ∧
      (clearForRun demoState).error = none ∧
      handleGenerateClick
          { demoState with generatedImages := some ["old"], error := some "old error" } goodEnv =
        handleGenerateClick demoState goodEnv ∧
      (handleReferenceImageUpload demoFile "u3" demoState).generatedImages = none ∧
      (handleReferenceImageUpload demoFile "u3" demoState).error = none ∧
      (handleSubjectImageUpload demoFile "u3" demoState).generatedImages = none ∧
      (handleSubjectImageUpload demoFile "u3" demoState).error = none) :=
  ⟨rfl, rfl,
    new_run_clears_stale demoState ⟨demoFile, "u1"⟩ ⟨demoFile, "u2"⟩ goodEnv
      (some ["old"]) (some "old error") demoFile "u3" rfl rfl⟩

/-- Claim C10: a successful run renders every generated image under the
fixed png data-URL prefix and offers it for download under a png filename,
whatever mime type the inline image data of the remote response carried. -/
theorem png_display_and_download (s : AppState) (r u : UploadedImage) (env : Env)
    (rb sb : List Char) (j : StyleJson) (d m : Fin 4 → String) (src : String) (idx : Nat)
    (h1 : s.referenceImage = some r) (h2 : s.subjectImage = some u)
    (h3 : env.refRead = Except.ok rb) (h4 : env.styleOutcome = Except.ok j)
    (h5 : env.subjRead = Except.ok sb)
    (h6 : ∀ i : Fin 4, env.fusionOutcomes i = Except.ok (singlePartResponse (d i) (m i))) :
    (handleGenerateClick s env).final.generatedImages =
      some ["data:image/png;base64," ++ d 0, "data:image/png;base64," ++ d 1,
        "data:image/png;base64," ++ d 2, "data:image/png;base64," ++ d 3] ∧
    handleDownload src idx = (src, "ai-fused-image-" ++ toString (idx + 1) ++ ".png") ∧
    ∃ stem, (handleDownload src idx).2 = stem ++ ".png" := by
  refine ⟨?_, rfl, ⟨"ai-fused-image-" ++ toString (idx + 1), rfl⟩⟩
  have hg : ∀ i : Fin 4, generateSingleImage (env.fusionOutcomes i) = Except.ok (d i) :=
    fun i => by rw [h6 i]; exact generateSingleImage_singlePart (d i) (m i)
  simp [handleGenerateClick, h1, h2, tryRun, h3, fileToBase64, generatePromptFromImage,
    h4, h5, generateFusedImages, promiseAll, hg 0, hg 1, hg 2, hg 3]

/-- Witness for png_display_and_download at a concrete run whose inline
image data carries a non-png mime type. -/
theorem png_display_and_download_witness :
    demoState.referenceImage = some ⟨demoFile, "u1"⟩ ∧
    demoState.subjectImage = some ⟨demoFile, "u2"⟩ ∧
    webpEnv.refRead = Except.ok ['d', ',', 'r'] ∧
    webpEnv.styleOutcome = Except.ok demoJson ∧
    webpEnv.subjRead = Except.ok ['d', ',', 's'] ∧
    (∀ i : Fin 4, webpEnv.fusionOutcomes i =
      Except.ok (singlePartResponse ((fun _ : Fin 4 => "CC") i) ((fun _ : Fin 4 => "image/webp") i))) ∧
    ((handleGenerateClick demoState webpEnv).final.generatedImages =
        some ["data:image/png;base64,CC", "data:image/png;base64,CC",
          "data:image/png;base64,CC", "data:image/png;base64,CC"] ∧
      handleDownload "data:image/png;base64,CC" 0 =
        ("data:image/png;base64,CC", "ai-fused-image-" ++ toString (0 + 1) ++ ".png") ∧
      ∃ stem, (handleDownload "data:image/png;base64,CC" 0).2 = stem ++ ".png") :=
  ⟨rfl, rfl, rfl, rfl, rfl, fun _ => rfl,
    png_display_and_download demoState ⟨demoFile, "u1"⟩ ⟨demoFile, "u2"⟩ webpEnv
      ['d', ',', 'r'] ['d', ',', 's'] demoJson (fun _ => "CC") (fun _ => "image/webp")
      "data:image/png;base64,CC" 0 rfl rfl rfl rfl rfl (fun _ => rfl)⟩

/-- Claim C3 counterexample: a run whose style response is missing the
required mood field still reaches the fusion phase, ends with no error,
and succeeds. -/
theorem missing_field_reaches_fusion_cex :
    hasAllRequiredFields cexJson = false ∧
    (handleGenerateClick demoState cexEnv).events.any isFusionCall = true ∧
    (handleGenerateClick demoState cexEnv).final.error = none ∧
    (handleGenerateClick demoState cexEnv).final.generatedImages =
      some ["data:image/png;base64,AA", "data:image/png;base64,AA",
        "data:image/png;base64,AA", "data:image/png;base64,AA"] :=
  ⟨rfl, rfl, rfl, rfl⟩

/-- Claim C3 amended: a style-extraction call that itself fails ends the
run Failed with the style message before any fusion call is issued; but
the client performs no schema validation, so a successful style response
reaches the fusion phase even when required fields are missing. -/
theorem style_failure_fatal_no_validation (s : AppState) (r u : UploadedImage)
    (env : Env) (rb : List Char)
    (h1 : s.referenceImage = some r) (h2 : s.subjectImage = some u)
    (h3 : env.refRead = Except.ok rb) :
    (∀ er : RemoteError, env.styleOutcome = Except.error er →
      (handleGenerateClick s env).final.error = some styleFailMsg ∧
      (handleGenerateClick s env).final.generatedImages = none ∧
      (handleGenerateClick s env).events.any isFusionCall = false) ∧
    (∀ (j : StyleJson) (sb : List Char), env.styleOutcome = Except.ok j →
      env.subjRead = Except.ok sb →
      (handleGenerateClick s env).events.any isFusionCall = true) := by
  constructor
  · intro er hso
    simp [handleGenerateClick, h1, h2, tryRun, h3, fileToBase64, generatePromptFromImage,
      hso, isFusionCall, messageOf, clearForRun]
  · intro j sb hso hsr
    simp only [handleGenerateClick, h1, h2, tryRun, h3, fileToBase64, generatePromptFromImage,
      hso, hsr, generateFusedImages]
    cases hpa : promiseAll [generateSingleImage (env.fusionOutcomes 0),
        generateSingleImage (env.fusionOutcomes 1), generateSingleImage (env.fusionOutcomes 2),
        generateSingleImage (env.fusionOutcomes 3)] with
    | ok l => simp [hpa, isFusionCall]
    | error e3 => simp [hpa, isFusionCall]

/-- Witness for style_failure_fatal_no_validation at a concrete
content-blocked style call. -/
theorem style_failure_fatal_no_validation_witness :
    demoState.referenceImage = some ⟨demoFile, "u1"⟩ ∧
    demoState.subjectImage = some ⟨demoFile, "u2"⟩ ∧
    badStyleEnv.refRead = Except.ok ['d', ',', 'r'] ∧
    ((handleGenerateClick demoState badStyleEnv).final.error = some styleFailMsg ∧
      (handleGenerateClick demoState badStyleEnv).final.generatedImages = none ∧
      (handleGenerateClick demoState badStyleEnv).events.any isFusionCall = false) :=
  ⟨rfl, rfl, rfl,
    (style_failure_fatal_no_validation demoState ⟨demoFile, "u1"⟩ ⟨demoFile, "u2"⟩
      badStyleEnv ['d', ',', 'r'] rfl rfl rfl).1 RemoteError.contentBlocked rfl⟩

end ImageFusion
